import Mathlib

/-!
Shallow embedding of the `route-maps-report` pipeline
(`src/route-maps-report/__init__.py`) and verification of the frozen
claims about its specification.

External effects (database queries, the filesystem, the headless
browser, reportlab) are modelled as explicit inputs: each query result
is an `Except Unit (List row)` fixture (`Except.error` models a raised
exception in `pd.read_sql` / `gpd.read_postgis`), the output directory
is a list of file names, and the capture / build / remove outcomes are
boolean-valued fixtures.  Numeric values (coordinates, sequence
numbers) are rationals, timestamps are integers.
-/

namespace RouteMaps

/-- Row of `public.t_route_plan` as read by `get_vehicle_and_route_info`. -/
structure PlanRow where
  vehicle_id : String
  route_alias : String
deriving DecidableEq

/-- Row of `public.t_route_data_from_telematics` as read by `get_route_timing`. -/
structure TimingRow where
  route_start_time : Int
  route_end_time : Int
deriving DecidableEq

/-- Row of `public.stg_masternaut_last_n_days` as read by `get_telematics_data`. -/
structure TelemetryRow where
  latitude : ℚ
  longitude : ℚ
  date : Int
  speed : ℚ
deriving DecidableEq

/-- Row of the journey-nodes query (`t_journey_nodes` join `t_journeys`). -/
structure NodeRow where
  lat : ℚ
  lon : ℚ
  node_sequence : ℚ
deriving DecidableEq

/-- Row of the charging-stations query (`t_ev_charging_stations`). -/
structure ChargeRow where
  lat : ℚ
  lon : ℚ
deriving DecidableEq

/-- Geometry of one road-segment row; coordinates are shapely `(x, y)`,
that is `(lon, lat)`.  `other` models a non-`LineString` geometry, which
the plotting loop skips (`isinstance(row.geom, LineString)`). -/
inductive Geometry where
  | lineString (coords : List (ℚ × ℚ))
  | other
deriving DecidableEq

/-- A fetched row with possibly-missing values: `none` is a row that
`DataFrame.dropna` removes. -/
def dropna {α : Type} (rows : List (Option α)) : List α :=
  rows.filterMap id

/-- All query results a single `create_route_map` call can observe,
plus the connection outcome of `get_connection`. -/
structure Db where
  connOk : Bool
  planRows : Except Unit (List PlanRow)
  timingRows : Except Unit (List TimingRow)
  telemetryRows : Except Unit (List TelemetryRow)
  nodeRows : Except Unit (List (Option NodeRow))
  segmentRows : Except Unit (List (Option Geometry))
  chargingRows : Except Unit (List (Option ChargeRow))

/-- `get_vehicle_and_route_info`: first row of `t_route_plan` for the
route, `(None, None)` on an empty result or a query error. -/
def get_vehicle_and_route_info (res : Except Unit (List PlanRow)) :
    Option String × Option String :=
  match res with
  | .error _ => (none, none)
  | .ok [] => (none, none)
  | .ok (r :: _) => (some r.vehicle_id, some r.route_alias)

/-- `get_route_timing`: first row of the telematics-timing query,
`(None, None)` on an empty result or a query error. -/
def get_route_timing (res : Except Unit (List TimingRow)) :
    Option Int × Option Int :=
  match res with
  | .error _ => (none, none)
  | .ok [] => (none, none)
  | .ok (r :: _) => (some r.route_start_time, some r.route_end_time)

/-- `get_telematics_data`: the whole result set, `None` on an empty
result or a query error. -/
def get_telematics_data (res : Except Unit (List TelemetryRow)) :
    Option (List TelemetryRow) :=
  match res with
  | .error _ => none
  | .ok [] => none
  | .ok (r :: rs) => some (r :: rs)

/-- Python truthiness test used at the guard
`if not vehicle_id or not route_alias`: `None` and the empty string are
falsy. -/
def falsy (o : Option String) : Bool :=
  match o with
  | none => true
  | some s => decide (s = "")

/-- One visual element added to the folium map. -/
inductive Layer where
  | nodeMarker (lat lon : ℚ) (label : Int)
  | plannedLine (points : List (ℚ × ℚ)) (arrow : Bool)
  | chargeMarker (lat lon : ℚ)
  | depotMarker (lat lon : ℚ)
  | actualLine (points : List (ℚ × ℚ))
  | startMarker (lat lon : ℚ)
  | endMarker (lat lon : ℚ)
deriving DecidableEq

/-- The rendered folium map: initial center, the layers in the order
they are added, and the `fit_bounds` box (`none` when `fit_bounds` was
not called).  Bounds are `((south, west), (north, east))`. -/
structure RouteMap where
  center : ℚ × ℚ
  layers : List Layer
  bounds : Option ((ℚ × ℚ) × (ℚ × ℚ))
deriving DecidableEq

/-- Python `round` on a rational: nearest integer
`⌊q + 1/2⌋ = ⌊(2 num + den) / (2 den)⌋`, computed by floor division on
numerator and denominator.  (CPython rounds exact halves to even; node
sequence numbers are integral, where the two agree.) -/
def pyRound (q : ℚ) : Int :=
  Int.fdiv (2 * q.num + (q.den : Int)) (2 * (q.den : Int))

/-- Depot latitude for Dartford, `51.463121` (`depot_lat` in the source;
written with `mkRat` so the kernel can evaluate it). -/
def depot_lat : ℚ := mkRat 51463121 1000000

/-- Depot longitude for Dartford, `0.246687` (`depot_lon` in the source). -/
def depot_lon : ℚ := mkRat 246687 1000000

/-- Latitude of the London fallback map center, `51.5`. -/
def fallback_lat : ℚ := mkRat 515 10

/-- Longitude of the London fallback map center, `-0.1`. -/
def fallback_lon : ℚ := mkRat (-1) 10

/-- The road-segment plotting loop: each `LineString` row becomes a blue
polyline with `(lat, lon)` points; `segment_counter` is incremented per
plotted line and an arrow overlay is attached when
`segment_counter % 20 == 0`. -/
def plotSegments : List Geometry → Nat → List Layer
  | [], _ => []
  | Geometry.lineString coords :: rest, counter =>
      Layer.plannedLine (coords.map (fun pt => (pt.2, pt.1)))
        ((counter + 1) % 20 == 0) :: plotSegments rest (counter + 1)
  | Geometry.other :: rest, counter => plotSegments rest counter

/-- Part 5 of `create_route_map`: the actual-route polyline and its
start/end markers, plotted only when the telematics frame is non-empty. -/
def actualLayers (telemetry : List TelemetryRow) : List Layer :=
  match telemetry with
  | [] => []
  | t :: ts =>
      let pts := (t :: ts).map (fun r => (r.latitude, r.longitude))
      let s := (t.latitude, t.longitude)
      let e := pts.getLastD (t.latitude, t.longitude)
      [Layer.actualLine pts, Layer.startMarker s.1 s.2, Layer.endMarker e.1 e.2]

/-- The `all_points` list used for `fit_bounds`: journey nodes, charging
stations, the depot, then telemetry points, each as `(lon, lat)`. -/
def allPointsOf (nodes : List NodeRow) (charging : List ChargeRow)
    (telemetry : List TelemetryRow) : List (ℚ × ℚ) :=
  nodes.map (fun n => (n.lon, n.lat))
    ++ charging.map (fun c => (c.lon, c.lat))
    ++ [(depot_lon, depot_lat)]
    ++ telemetry.map (fun r => (r.longitude, r.latitude))

/-- Extremes of `all_points` as `[[south, west], [north, east]]`, the
argument passed to `m.fit_bounds`. -/
def bboxOf (pts : List (ℚ × ℚ)) : (ℚ × ℚ) × (ℚ × ℚ) :=
  match pts with
  | [] => ((0, 0), (0, 0))
  | p :: rest =>
      let qmax : ℚ → ℚ → ℚ := fun a b => if a < b then b else a
      let qmin : ℚ → ℚ → ℚ := fun a b => if b < a then b else a
      let north := rest.foldl (fun a q => qmax a q.2) p.2
      let south := rest.foldl (fun a q => qmin a q.2) p.2
      let east := rest.foldl (fun a q => qmax a q.1) p.1
      let west := rest.foldl (fun a q => qmin a q.1) p.1
      ((south, west), (north, east))

/-- Parts 4–6 of `create_route_map`: build the folium map from the
cleaned frames.  Center is the first journey node, else London
`(51.5, -0.1)`; layers are added in source order (nodes, segments,
charging, depot, actual route); `fit_bounds` runs only when
`all_points` is non-empty. -/
def buildMap (nodes : List NodeRow) (segs : List Geometry)
    (charging : List ChargeRow) (telemetry : List TelemetryRow) : RouteMap :=
  let center : ℚ × ℚ :=
    match nodes with
    | [] => (fallback_lat, fallback_lon)
    | n :: _ => (n.lat, n.lon)
  let layers :=
    nodes.map (fun n => Layer.nodeMarker n.lat n.lon (pyRound n.node_sequence))
      ++ plotSegments segs 0
      ++ charging.map (fun c => Layer.chargeMarker c.lat c.lon)
      ++ [Layer.depotMarker depot_lat depot_lon]
      ++ actualLayers telemetry
  let all_points := allPointsOf nodes charging telemetry
  { center := center
    layers := layers
    bounds := if all_points.isEmpty then none else some (bboxOf all_points) }

/-- Body of the `try` block of `create_route_map` after the vehicle-info
guard: resolve telemetry (only for a vehicle other than the sentinel
`'X'`, and only when both timing values are present), then run the three
planned-geometry fetches; an error in any of those three propagates to
the enclosing `except`. -/
def route_map_body (db : Db) (vehicle_id : Option String) :
    Except Unit RouteMap :=
  let telemetry : List TelemetryRow :=
    if vehicle_id ≠ some "X" then
      match get_route_timing db.timingRows with
      | (some _, some _) =>
          match get_telematics_data db.telemetryRows with
          | some rows => rows
          | none => []
      | _ => []
    else []
  match db.nodeRows, db.segmentRows, db.chargingRows with
  | .ok nrows, .ok srows, .ok crows =>
      .ok (buildMap (dropna nrows) (dropna srows) (dropna crows) telemetry)
  | _, _, _ => .error ()

/-- `create_route_map`: `None` when the connection fails, when the
vehicle/alias lookup yields falsy values, or when the body raises; the
saved map otherwise. -/
def create_route_map (db : Db) : Option RouteMap :=
  if db.connOk = false then none
  else
    let vr := get_vehicle_and_route_info db.planRows
    if falsy vr.1 || falsy vr.2 then none
    else
      match route_map_body db vr.1 with
      | .ok m => some m
      | .error _ => none

/-- The journey-node frame after `dropna`, i.e. the planned nodes of the
assembled record for this route (`[]` when the fetch raised, in which
case no record is assembled at all). -/
def assembledNodes (db : Db) : List NodeRow :=
  match db.nodeRows with
  | .ok rows => dropna rows
  | .error _ => []

/-- The per-route loop of `main`: each route is processed by
`create_route_map`, independently of the others. -/
def processRoutes (dbs : List Db) : List (Option RouteMap) :=
  dbs.map create_route_map

/-- Whether the planned nodes carry strictly increasing sequence numbers. -/
def strictlyIncreasingSeq : List NodeRow → Bool
  | [] => true
  | [_] => true
  | a :: b :: t =>
      decide (a.node_sequence < b.node_sequence) && strictlyIncreasingSeq (b :: t)

/-- Predicate selecting numbered journey-node markers. -/
def isNodeMarker : Layer → Bool
  | .nodeMarker _ _ _ => true
  | _ => false

/-- Predicate selecting charging-station markers. -/
def isChargeMarker : Layer → Bool
  | .chargeMarker _ _ => true
  | _ => false

/-- Predicate selecting the depot marker. -/
def isDepotMarker : Layer → Bool
  | .depotMarker _ _ => true
  | _ => false

/-- Predicate selecting the actual-route polyline. -/
def isActualLine : Layer → Bool
  | .actualLine _ => true
  | _ => false

/-- Predicate selecting the actual-route start marker. -/
def isStartMarker : Layer → Bool
  | .startMarker _ _ => true
  | _ => false

/-- Predicate selecting the actual-route end marker. -/
def isEndMarker : Layer → Bool
  | .endMarker _ _ => true
  | _ => false

/-- Number of numbered node markers on a map. -/
def countNodeMarkers (m : RouteMap) : Nat := m.layers.countP isNodeMarker

/-- Number of charging markers on a map. -/
def countChargeMarkers (m : RouteMap) : Nat := m.layers.countP isChargeMarker

/-- Number of depot markers on a map. -/
def countDepotMarkers (m : RouteMap) : Nat := m.layers.countP isDepotMarker

/-- Number of actual-route polylines on a map. -/
def countActualLines (m : RouteMap) : Nat := m.layers.countP isActualLine

/-- Number of actual-route start markers on a map. -/
def countStartMarkers (m : RouteMap) : Nat := m.layers.countP isStartMarker

/-- Number of actual-route end markers on a map. -/
def countEndMarkers (m : RouteMap) : Nat := m.layers.countP isEndMarker

/-- The label of a numbered node marker, if the layer is one. -/
def nodeLabelOf : Layer → Option Int
  | .nodeMarker _ _ k => some k
  | _ => none

/-- Labels of the numbered node markers, in plotting order. -/
def nodeMarkerLabels (m : RouteMap) : List Int :=
  m.layers.filterMap nodeLabelOf

/-- The polyline of a planned-segment layer, if the layer is one. -/
def lineOf : Layer → Option (List (ℚ × ℚ))
  | .plannedLine pts _ => some pts
  | _ => none

/-- The arrow flag of a planned-segment layer, if the layer is one. -/
def arrowOf : Layer → Option Bool
  | .plannedLine _ b => some b
  | _ => none

/-- The coordinates of a `LineString` geometry, if it is one. -/
def lineGeomOf : Geometry → Option (List (ℚ × ℚ))
  | .lineString cs => some cs
  | .other => none

/-- The `LineString` geometries of the segment frame, in row order. -/
def lineStringsOf (segs : List Geometry) : List (List (ℚ × ℚ)) :=
  segs.filterMap lineGeomOf

/-- Polylines plotted by the segment loop, in plotting order. -/
def plottedLines (segs : List Geometry) : List (List (ℚ × ℚ)) :=
  (plotSegments segs 0).filterMap lineOf

/-- Arrow flags of the plotted polylines, in plotting order. -/
def arrowFlags (segs : List Geometry) : List Bool :=
  (plotSegments segs 0).filterMap arrowOf

/-- Row of `v_onroute_charge_daily_plan` as filtered by
`fetch_route_numbers`. -/
structure PlanDeparture where
  planDay : Int
  siteId : Int
  routeNo : String
deriving DecidableEq

/-- The day whose routes `fetch_route_numbers` discovers:
`CURRENT_DATE - INTERVAL '2 days'`. -/
def discoveryDay (today : Int) : Int := today - 2

/-- The `current_date_minus_1` value of `main`, used for the telemetry
window filter and the report file name: one day before the run date. -/
def current_date_minus_1 (today : Int) : Int := today - 1

/-- `fetch_route_numbers`: route numbers of plan rows departing exactly
two days before the run date at the given site; `[]` when the
connection or the query fails. -/
def fetch_route_numbers (connOk : Bool) (today : Int) (siteId : Int)
    (plans : Except Unit (List PlanDeparture)) : List String :=
  if connOk = false then []
  else
    match plans with
    | .error _ => []
    | .ok rows =>
        (rows.filter (fun r =>
          decide (r.planDay = discoveryDay today) && decide (r.siteId = siteId))).map
          (fun r => r.routeNo)

/-- Helper of `uniqueFirst`: keep elements not seen before. -/
def uniqueFirstAux (seen : List String) : List String → List String
  | [] => []
  | x :: t =>
      if seen.contains x then uniqueFirstAux seen t
      else x :: uniqueFirstAux (x :: seen) t

/-- `pandas.unique`: first occurrences, in order. -/
def uniqueFirst (l : List String) : List String :=
  uniqueFirstAux [] l

/-- Outcome of one screenshot-capture attempt in the PDF loop:
the screenshot file was not created, was created empty, the reportlab
`Image` constructor raised, or everything succeeded. -/
inductive CaptureStatus where
  | notCreated
  | emptyFile
  | imageFail
  | ok
deriving DecidableEq

/-- One flowable appended to the reportlab `elements` list.  Map
headings use the subtitle style, like the legend heading. -/
inductive Element where
  | titlePara (s : String)
  | spacer
  | subtitle (s : String)
  | legendTable
  | pageBreak
  | image (path : String)
  | placeholder (s : String)
deriving DecidableEq

/-- Prefix test on code points (`str.startswith`). -/
def strStartsWith (s p : String) : Bool :=
  p.data.isPrefixOf s.data

/-- Suffix test on code points (`str.endswith`). -/
def strEndsWith (s p : String) : Bool :=
  p.data.isSuffixOf s.data

/-- Whether a file name matches the glob `journey_map_*.html`. -/
def matchesHtml (f : String) : Bool :=
  strStartsWith f "journey_map_" && strEndsWith f ".html"

/-- Whether a file name matches the glob `screenshot_*.jpg`. -/
def matchesShot (f : String) : Bool :=
  strStartsWith f "screenshot_" && strEndsWith f ".jpg"

/-- The route id extracted by `re.search(r'journey_map_(.+?)\.html', f)`,
falling back to the file name itself when the pattern does not match. -/
def routeIdOf (f : String) : String :=
  if matchesHtml f && decide (17 < f.data.length) then
    String.mk ((f.data.drop 12).take (f.data.length - 17))
  else f

/-- `re.sub(r'[^a-zA-Z0-9_]', '_', route_id)`. -/
def sanitizeId (s : String) : String :=
  String.mk (s.data.map (fun c => if c.isAlphanum || c == '_' then c else '_'))

/-- Lexicographic code-point comparison, the order `sorted` uses on
Python strings. -/
def charListLe : List Char → List Char → Bool
  | [], _ => true
  | _ :: _, [] => false
  | a :: as, b :: bs =>
      if a < b then true else if b < a then false else charListLe as bs

/-- String comparison for `sorted`. -/
def strLe (s t : String) : Bool := charListLe s.data t.data

/-- Insert into a sorted list (helper of `sortStrings`). -/
def insertSorted (f : String) : List String → List String
  | [] => [f]
  | g :: t => if strLe f g then f :: g :: t else g :: insertSorted f t

/-- Python `sorted` on file names: stable ascending insertion sort. -/
def sortStrings : List String → List String
  | [] => []
  | x :: t => insertSorted x (sortStrings t)

/-- Name of the screenshot file taken for one map file. -/
def screenshotName (f : String) : String :=
  "screenshot_" ++ sanitizeId (routeIdOf f) ++ ".jpg"

/-- External state observed by `create_pdf_report`: import and webdriver
outcomes, the output-directory contents at the time the globs run, the
per-file capture outcome, the alias lookup, the `doc.build` outcome, and
the per-file `os.remove` outcome. -/
structure ReportEnv where
  importsOk : Bool
  driverOk : Bool
  dirFiles : List String
  capture : String → CaptureStatus
  aliasOf : String → Option String
  buildOk : Bool
  removeOk : String → Bool
  day : String

/-- Section heading text: route id, plus the alias when the lookup
returned a truthy one. -/
def titleOf (env : ReportEnv) (f : String) : String :=
  let rid := routeIdOf f
  match env.aliasOf rid with
  | some a => if a = "" then "Route " ++ rid else "Route " ++ rid ++ " (" ++ a ++ ")"
  | none => "Route " ++ rid

/-- Elements contributed by one map file of the PDF loop.  A failed or
empty screenshot contributes nothing; a failed `Image` contributes a
heading and a placeholder note; a successful capture contributes
heading, spacer, image, a page break unless the file equals the last
element of the sorted file list, and a trailing spacer. -/
def sectionFor (env : ReportEnv) (f lastF : String) : List Element :=
  match env.capture f with
  | .notCreated => []
  | .emptyFile => []
  | .imageFail =>
      [Element.subtitle (titleOf env f), Element.spacer,
       Element.placeholder ("[Screenshot failed to load for " ++ titleOf env f ++ "]")]
  | .ok =>
      [Element.subtitle (titleOf env f), Element.spacer,
       Element.image (screenshotName f)]
        ++ (if f = lastF then [] else [Element.pageBreak])
        ++ [Element.spacer]

/-- The PDF loop over the sorted map files. -/
def sectionsLoop (env : ReportEnv) (fs : List String) (lastF : String) :
    List Element :=
  match fs with
  | [] => []
  | f :: t => sectionFor env f lastF ++ sectionsLoop env t lastF

/-- The last element of the sorted file list, `sorted(html_files)[-1]`
(only consulted on non-empty lists). -/
def lastOf : List String → String
  | [] => ""
  | [x] => x
  | _ :: y :: t => lastOf (y :: t)

/-- `sorted(glob.glob(os.path.join(output_dir, "journey_map_*.html")))`. -/
def sortedHtml (env : ReportEnv) : List String :=
  sortStrings (env.dirFiles.filter matchesHtml)

/-- The per-route sections of the report body. -/
def sections (env : ReportEnv) : List Element :=
  sectionsLoop env (sortedHtml env) (lastOf (sortedHtml env))

/-- The fixed report prefix: title, legend heading, legend table, page
break, spacer. -/
def reportHeader (day : String) : List Element :=
  [Element.titlePara ("Route Maps Report - " ++ day), Element.spacer,
   Element.subtitle "Map Legend", Element.spacer, Element.legendTable,
   Element.pageBreak, Element.spacer]

/-- Observable outcome of `create_pdf_report`: the returned path (`none`
models returning `None`), the flowables handed to `doc.build` (empty on
the paths that never reach the build), and the files removed by the
cleanup phase, in removal order. -/
structure ReportOutcome where
  pdfPath : Option String
  elements : List Element
  deletedFiles : List String
deriving DecidableEq

/-- `create_pdf_report`: fails on missing imports, webdriver failure or
an empty map-file glob; otherwise builds the document and, only when the
build succeeded, removes every `screenshot_*.jpg` and then every
`journey_map_*.html` in the output directory (each removal may itself
fail and is then skipped). -/
def create_pdf_report (env : ReportEnv) : ReportOutcome :=
  if env.importsOk = false then ⟨none, [], []⟩
  else if env.driverOk = false then ⟨none, [], []⟩
  else
    match sortedHtml env with
    | [] => ⟨none, [], []⟩
    | _ :: _ =>
        let elements := reportHeader env.day ++ sections env
        if env.buildOk then
          ⟨some ("route_map_report_" ++ env.day ++ ".pdf"),
           elements,
           (env.dirFiles.filter matchesShot).filter env.removeOk
             ++ (env.dirFiles.filter matchesHtml).filter env.removeOk⟩
        else ⟨none, elements, []⟩

/-- Spec-side layout of the report body (§4.7 step 3 of the spec): one
section per surviving artifact in order, a page separator between
consecutive sections and none after the final one. -/
def specSections (env : ReportEnv) : List String → List Element
  | [] => []
  | [f] =>
      [Element.subtitle (titleOf env f), Element.spacer,
       Element.image (screenshotName f), Element.spacer]
  | f :: g :: t =>
      [Element.subtitle (titleOf env f), Element.spacer,
       Element.image (screenshotName f), Element.pageBreak, Element.spacer]
        ++ specSections env (g :: t)

/-- Whether an element is a captured image. -/
def isImage : Element → Bool
  | .image _ => true
  | _ => false

/-- The elements strictly after the last captured image (the whole list
when no image occurs). -/
def afterLastImage (es : List Element) : List Element :=
  (es.reverse.takeWhile (fun e => !isImage e)).reverse

/-- Outcome of one whole batch run of `main`. -/
structure BatchOutcome where
  maps : List (Option RouteMap)
  report : Option ReportOutcome

/-- The batch body of `main`: discover routes, abort when none were
found, otherwise process every unique route and then always run the
report-assembly stage. -/
def main_run (connOk : Bool) (today : Int) (siteId : Int)
    (plans : Except Unit (List PlanDeparture)) (dbOf : String → Db)
    (renv : ReportEnv) : BatchOutcome :=
  match uniqueFirst (fetch_route_numbers connOk today siteId plans) with
  | [] => { maps := [], report := none }
  | r :: rs =>
      { maps := (r :: rs).map (fun x => create_route_map (dbOf x))
        report := some (create_pdf_report renv) }

/-! Concrete fixtures used to evaluate the embedding at specific inputs. -/

/-- A minimal report environment for batch-level fixtures. -/
def envC3 : ReportEnv :=
  { importsOk := true
    driverOk := true
    dirFiles := ["journey_map_R1.html"]
    capture := fun _ => .ok
    aliasOf := fun _ => none
    buildOk := true
    removeOk := fun _ => true
    day := "2024-01-02" }

/-- A route with no `t_route_plan` record but with planned geometry
available in the journey tables. -/
def dbC1 : Db :=
  { connOk := true
    planRows := .ok []
    timingRows := .ok []
    telemetryRows := .ok []
    nodeRows := .ok [some ⟨1, 2, 1⟩, some ⟨3, 4, 2⟩]
    segmentRows := .ok [some (.lineString [(0, 1), (2, 3)])]
    chargingRows := .ok [some ⟨5, 6⟩] }

/-- A route whose journey-nodes fetch raises, so the body of
`create_route_map` errors. -/
def dbC3err : Db :=
  { connOk := true
    planRows := .ok [⟨"V1", "A1"⟩]
    timingRows := .ok []
    telemetryRows := .ok []
    nodeRows := .error ()
    segmentRows := .ok []
    chargingRows := .ok [] }

/-- A route with a real vehicle whose telemetry sub-fetches both raise. -/
def dbC3deg : Db :=
  { connOk := true
    planRows := .ok [⟨"V1", "A1"⟩]
    timingRows := .error ()
    telemetryRows := .error ()
    nodeRows := .ok [some ⟨0, 0, 1⟩]
    segmentRows := .ok []
    chargingRows := .ok [] }

/-- The Scenario A route: sentinel vehicle `X`, three planned nodes (one
incomplete row dropped), one charging stop. -/
def dbC5 : Db :=
  { connOk := true
    planRows := .ok [⟨"X", "A7"⟩]
    timingRows := .ok [⟨5, 9⟩]
    telemetryRows := .ok [⟨3, 4, 6, 0⟩]
    nodeRows := .ok [some ⟨1, 2, 1⟩, none, some ⟨3, 4, 2⟩, some ⟨5, 6, 3⟩]
    segmentRows := .ok [some (.lineString [(0, 1), (2, 3)]), some .other]
    chargingRows := .ok [some ⟨7, 8⟩] }

/-- A route whose journey-node rows come back with sequence numbers out
of order (2 before 1). -/
def dbC7 : Db :=
  { connOk := true
    planRows := .ok [⟨"V1", "A1"⟩]
    timingRows := .ok []
    telemetryRows := .ok []
    nodeRows := .ok [some ⟨10, 20, 2⟩, none, some ⟨30, 40, 1⟩]
    segmentRows := .ok [some (.lineString [(0, 1), (2, 3)])]
    chargingRows := .ok [some ⟨5, 6⟩] }

/-- The map rendered for `dbC7`. -/
def mapC7 : RouteMap :=
  (create_route_map dbC7).getD (buildMap [] [] [] [])

/-- A segment frame with two `LineString` rows. -/
def segsC9 : List Geometry :=
  [.lineString [(0, 1), (2, 3)], .other, .lineString [(4, 5), (6, 7)]]

/-- Report environment whose `doc.build` fails, with staged artifacts
present in the output directory. -/
def envC4 : ReportEnv :=
  { importsOk := true
    driverOk := true
    dirFiles := ["journey_map_A.html", "journey_map_B.html", "screenshot_A.jpg"]
    capture := fun _ => .ok
    aliasOf := fun _ => none
    buildOk := false
    removeOk := fun _ => true
    day := "2024-01-02" }

/-- Report environment in which the capture of the sorted-last map file
fails, so its section is dropped. -/
def envC6x : ReportEnv :=
  { importsOk := true
    driverOk := true
    dirFiles := ["journey_map_B.html", "journey_map_A.html"]
    capture := fun f => if f = "journey_map_A.html" then .ok else .notCreated
    aliasOf := fun _ => none
    buildOk := true
    removeOk := fun _ => true
    day := "2024-01-02" }

/-- Report environment in which every capture succeeds. -/
def envC6w : ReportEnv :=
  { importsOk := true
    driverOk := true
    dirFiles := ["journey_map_B.html", "journey_map_A.html"]
    capture := fun _ => .ok
    aliasOf := fun f => if f = "A" then some "AliasA" else none
    buildOk := true
    removeOk := fun _ => true
    day := "2024-01-02" }

/-- Report environment with a successful build and a leftover screenshot
belonging to a route whose section was dropped (capture failed for
`journey_map_Z.html`, yet `screenshot_Z.jpg` is on disk). -/
def envC10 : ReportEnv :=
  { importsOk := true
    driverOk := true
    dirFiles := ["journey_map_A.html", "journey_map_Z.html", "screenshot_Z.jpg",
                 "route_map_report_2024-01-02.pdf"]
    capture := fun f => if f = "journey_map_Z.html" then .emptyFile else .ok
    aliasOf := fun _ => none
    buildOk := true
    removeOk := fun _ => true
    day := "2024-01-02" }

/-! Helper lemmas. -/

/-- Every layer produced by the segment loop is a planned polyline. -/
theorem mem_plotSegments {l : Layer} :
    ∀ (segs : List Geometry) (c : Nat), l ∈ plotSegments segs c →
      ∃ pts b, l = Layer.plannedLine pts b := by
  intro segs
  induction segs with
  | nil => intro c h; simp [plotSegments] at h
  | cons g rest ih =>
      intro c h
      cases g with
      | lineString cs =>
          rcases List.mem_cons.mp h with h1 | h1
          · exact ⟨_, _, h1⟩
          · exact ih _ h1
      | other => exact ih _ h

/-- Every layer produced by the actual-route plot is an actual line or a
start or end marker. -/
theorem mem_actualLayers {l : Layer} (tel : List TelemetryRow)
    (h : l ∈ actualLayers tel) :
    (∃ pts, l = Layer.actualLine pts) ∨ (∃ x y, l = Layer.startMarker x y) ∨
      (∃ x y, l = Layer.endMarker x y) := by
  cases tel with
  | nil => simp [actualLayers] at h
  | cons t ts =>
      simp only [actualLayers, List.mem_cons, List.mem_singleton] at h
      rcases h with h | h | h | h
      · exact Or.inl ⟨_, h⟩
      · exact Or.inr (Or.inl ⟨_, _, h⟩)
      · exact Or.inr (Or.inr ⟨_, _, h⟩)
      · simp at h

/-- Counting over a mapped list whose images all satisfy the predicate. -/
theorem countP_map_all_true {α : Type} (p : Layer → Bool) (f : α → Layer)
    (hp : ∀ a, p (f a) = true) (l : List α) : (l.map f).countP p = l.length := by
  induction l with
  | nil => rfl
  | cons a t ih => simp [List.countP_cons, hp, ih]

/-- Counting over a mapped list whose images never satisfy the predicate. -/
theorem countP_map_all_false {α : Type} (p : Layer → Bool) (f : α → Layer)
    (hp : ∀ a, p (f a) = false) (l : List α) : (l.map f).countP p = 0 := by
  induction l with
  | nil => rfl
  | cons a t ih => simp [List.countP_cons, hp, ih]

/-- The segment loop contributes nothing to a count of non-line layers. -/
theorem countP_plotSegments_zero (p : Layer → Bool)
    (hp : ∀ pts b, p (Layer.plannedLine pts b) = false)
    (segs : List Geometry) (c : Nat) : (plotSegments segs c).countP p = 0 := by
  rw [List.countP_eq_zero]
  intro l hl
  obtain ⟨pts, b, rfl⟩ := mem_plotSegments segs c hl
  simp [hp]

/-- Node labels extracted from the node-marker part of the layer list. -/
theorem filterMap_nodeLabel_markers (ns : List NodeRow) :
    (ns.map (fun n => Layer.nodeMarker n.lat n.lon (pyRound n.node_sequence))).filterMap
        nodeLabelOf = ns.map (fun n => pyRound n.node_sequence) := by
  induction ns with
  | nil => rfl
  | cons n t ih => simp [nodeLabelOf, ih]

/-- The node-marker labels of a rendered map are exactly the planned
nodes' rounded sequence numbers, in assembly order. -/
theorem nodeMarkerLabels_buildMap (ns : List NodeRow) (segs : List Geometry)
    (cs : List ChargeRow) (tel : List TelemetryRow) :
    nodeMarkerLabels (buildMap ns segs cs tel) =
      ns.map (fun n => pyRound n.node_sequence) := by
  unfold nodeMarkerLabels buildMap
  simp only [List.filterMap_append]
  rw [filterMap_nodeLabel_markers]
  have h2 : (plotSegments segs 0).filterMap nodeLabelOf = [] := by
    rw [List.filterMap_eq_nil_iff]
    intro l hl
    obtain ⟨pts, b, rfl⟩ := mem_plotSegments segs 0 hl
    rfl
  have h3 : (cs.map (fun c => Layer.chargeMarker c.lat c.lon)).filterMap
      nodeLabelOf = [] := by
    rw [List.filterMap_eq_nil_iff]
    intro l hl
    obtain ⟨c, _, rfl⟩ := List.mem_map.mp hl
    rfl
  have h5 : (actualLayers tel).filterMap nodeLabelOf = [] := by
    rw [List.filterMap_eq_nil_iff]
    intro l hl
    rcases mem_actualLayers tel hl with ⟨_, rfl⟩ | ⟨_, _, rfl⟩ | ⟨_, _, rfl⟩ <;> rfl
  simp [h2, h3, h5, nodeLabelOf]

/-- The center of a rendered map: first planned node, else the fallback. -/
theorem center_buildMap (ns : List NodeRow) (segs : List Geometry)
    (cs : List ChargeRow) (tel : List TelemetryRow) :
    (buildMap ns segs cs tel).center =
      (match ns with
       | [] => (fallback_lat, fallback_lon)
       | n :: _ => (n.lat, n.lon)) := by
  unfold buildMap
  rfl

/-! C2: single target day. -/

/-- C2 (code_bug evidence): the claim says the day for which routes are
discovered equals the target day used for telemetry windows and the
report key.  In the code, `fetch_route_numbers` filters plan rows on
`CURRENT_DATE - 2 days` while `main` computes `current_date_minus_1`
(one day before the run date) for both other uses, so the two days
always differ, and a plan row departing on the telemetry target day is
never discovered. -/
theorem claim_C2_day_mismatch (t site : Int) (r : String) :
    discoveryDay t ≠ current_date_minus_1 t ∧
    fetch_route_numbers true t site
      (Except.ok [⟨current_date_minus_1 t, site, r⟩]) = [] := by
  constructor
  · unfold discoveryDay current_date_minus_1
    omega
  · unfold fetch_route_numbers discoveryDay current_date_minus_1
    simp only [Bool.true_eq_false, if_false, List.filter]
    have : ¬(t - 1 = t - 2) := by omega
    simp [this]

/-! C4: artifacts are deleted only after a successful build. -/

/-- C4: when `doc.build` (persisting the assembled document) fails, the
cleanup phase never runs — no staged screenshot or map file is deleted —
and the failure is reported by returning `None`. -/
theorem claim_C4_no_delete_on_failure (env : ReportEnv)
    (hb : env.buildOk = false) :
    (create_pdf_report env).deletedFiles = [] ∧
    (create_pdf_report env).pdfPath = none := by
  unfold create_pdf_report
  cases h1 : env.importsOk with
  | false => simp
  | true =>
      cases h2 : env.driverOk with
      | false => simp
      | true =>
          cases h3 : sortedHtml env with
          | nil => simp
          | cons f t => simp [hb]

/-- C4 witness: a concrete failing build deletes nothing and reports
failure. -/
theorem claim_C4_witness :
    (create_pdf_report envC4).deletedFiles = [] ∧
    (create_pdf_report envC4).pdfPath = none :=
  claim_C4_no_delete_on_failure envC4 (by rfl)

/-! C10: the release phase deletes by glob, independent of survival. -/

/-- C10: after a successful build the cleanup phase deletes every
`screenshot_*.jpg` and every `journey_map_*.html` in the output
directory, and the deleted set does not depend on which routes' sections
survived capture. -/
theorem claim_C10_cleanup_globs (env : ReportEnv)
    (cap2 : String → CaptureStatus)
    (himp : env.importsOk = true) (hdrv : env.driverOk = true)
    (hne : sortedHtml env ≠ []) (hb : env.buildOk = true)
    (hrm : ∀ f, env.removeOk f = true) :
    (create_pdf_report env).deletedFiles =
      env.dirFiles.filter matchesShot ++ env.dirFiles.filter matchesHtml ∧
    (create_pdf_report { env with capture := cap2 }).deletedFiles =
      (create_pdf_report env).deletedFiles := by
  have hfilter : ∀ l : List String, l.filter env.removeOk = l := by
    intro l
    exact List.filter_eq_self.mpr (fun a _ => hrm a)
  have hsorted : sortedHtml { env with capture := cap2 } = sortedHtml env := rfl
  unfold create_pdf_report
  cases h3 : sortedHtml env with
  | nil => exact absurd h3 hne
  | cons f t =>
      rw [hsorted, h3]
      simp [himp, hdrv, hb, hfilter]

/-- C10 witness: with a leftover screenshot of a dropped route on disk,
cleanup removes it together with every map file, and an environment
differing only in capture outcomes deletes the same files. -/
theorem claim_C10_witness :
    (create_pdf_report envC10).deletedFiles =
      envC10.dirFiles.filter matchesShot ++ envC10.dirFiles.filter matchesHtml ∧
    (create_pdf_report { envC10 with capture := fun _ => .ok }).deletedFiles =
      (create_pdf_report envC10).deletedFiles :=
  claim_C10_cleanup_globs envC10 (fun _ => .ok) (by rfl) (by rfl) (by decide)
    (by rfl) (fun f => rfl)

/-! C8: the viewport bounding box. -/

/-- C8: the renderer computes the `fit_bounds` box over the union of all
planned node coordinates, charging-stop coordinates, the depot
coordinate and all telemetry coordinates; since the depot is always in
that union the union is never empty, the empty-union branch (which keeps
the fallback center and zoom) is never taken, and the degenerate
zero-plotted-points case cannot fail. -/
theorem claim_C8_bounding_box (ns : List NodeRow) (segs : List Geometry)
    (cs : List ChargeRow) (tel : List TelemetryRow) :
    (buildMap ns segs cs tel).bounds =
      some (bboxOf (allPointsOf ns cs tel)) ∧
    (allPointsOf ns cs tel).isEmpty = false ∧
    (buildMap ns segs cs tel).bounds =
      (if (allPointsOf ns cs tel).isEmpty then none
       else some (bboxOf (allPointsOf ns cs tel))) := by
  have hmem : (depot_lon, depot_lat) ∈ allPointsOf ns cs tel := by
    simp [allPointsOf]
  have hne : (allPointsOf ns cs tel).isEmpty = false := by
    cases h : (allPointsOf ns cs tel).isEmpty
    · rfl
    · rw [List.isEmpty_iff] at h
      rw [h] at hmem
      simp at hmem
  refine ⟨?_, hne, ?_⟩ <;> simp [buildMap, hne]

/-! C1: a route with no planned-route record. -/

/-- C1 counterexample: the claim says such a route still gets a
planned-only map artifact.  For `dbC1` the plan lookup returns
`(None, None)` and planned geometry exists (`assembledNodes dbC1 ≠ []`),
yet `create_route_map` returns `None`: the route is skipped before any
planned data is fetched, and no artifact of any kind is rendered. -/
theorem claim_C1_counterexample :
    get_vehicle_and_route_info dbC1.planRows = (none, none) ∧
    assembledNodes dbC1 ≠ [] ∧
    create_route_map dbC1 = none := by
  refine ⟨rfl, ?_, rfl⟩
  decide

/-- C1 (amended): when no planned-route record exists the resolver
returns both vehicle id and route alias as null; this is non-fatal to
the batch — the loop continues with the remaining routes — but the
route is skipped entirely: no telemetry step runs and no map artifact,
not even a planned-only one, is rendered for it. -/
theorem claim_C1_amended (db : Db) (pre post : List Db)
    (h : db.planRows = Except.ok []) :
    get_vehicle_and_route_info db.planRows = (none, none) ∧
    create_route_map db = none ∧
    processRoutes (pre ++ db :: post) =
      processRoutes pre ++ none :: processRoutes post := by
  have h1 : get_vehicle_and_route_info db.planRows = (none, none) := by
    rw [h]; rfl
  have h2 : create_route_map db = none := by
    unfold create_route_map
    cases hc : db.connOk with
    | false => simp
    | true => simp [hc, h1, falsy]
  exact ⟨h1, h2, by simp [processRoutes, h2]⟩

/-- C1 witness: the amended statement evaluated on the concrete `dbC1`
as the only route of the batch. -/
theorem claim_C1_witness :
    get_vehicle_and_route_info dbC1.planRows = (none, none) ∧
    create_route_map dbC1 = none ∧
    processRoutes ([] ++ dbC1 :: []) =
      processRoutes [] ++ none :: processRoutes [] :=
  claim_C1_amended dbC1 [] [] (by rfl)

/-! C3: per-route failure isolation. -/

/-- C3: a hard error in the body of a route's data assembly or rendering
is caught at the `create_route_map` boundary and turned into `None`
(first conjunct); the batch loop processes each route independently and
continues past it (second conjunct); an error in a telemetry sub-fetch
is downgraded to an empty telemetry frame while the map is still
produced (third conjunct); and the report-assembly stage runs with the
same outcome no matter what the per-route processing did (fourth
conjunct). -/
theorem claim_C3_isolation (dbE db2 : Db) (pre post : List Db)
    (v a : String) (rest : List PlanRow) (nrows : List (Option NodeRow))
    (srows : List (Option Geometry)) (crows : List (Option ChargeRow))
    (t site : Int) (plans : Except Unit (List PlanDeparture))
    (dbOf dbOf2 : String → Db) (renv : ReportEnv)
    (hE : route_map_body dbE (get_vehicle_and_route_info dbE.planRows).1 =
      Except.error ())
    (h2 : db2 = { connOk := true
                  planRows := Except.ok (⟨v, a⟩ :: rest)
                  timingRows := Except.error ()
                  telemetryRows := Except.error ()
                  nodeRows := Except.ok nrows
                  segmentRows := Except.ok srows
                  chargingRows := Except.ok crows })
    (hv : v ≠ "") (ha : a ≠ "") :
    create_route_map dbE = none ∧
    processRoutes (pre ++ dbE :: post) =
      processRoutes pre ++ create_route_map dbE :: processRoutes post ∧
    create_route_map db2 =
      some (buildMap (dropna nrows) (dropna srows) (dropna crows) []) ∧
    (main_run true t site plans dbOf renv).report =
      (main_run true t site plans dbOf2 renv).report := by
  refine ⟨?_, ?_, ?_, ?_⟩
  · unfold create_route_map
    cases hc : dbE.connOk with
    | false => simp
    | true => simp [hc, hE]
  · simp [processRoutes]
  · subst h2
    by_cases hvx : v = "X" <;>
      simp [create_route_map, get_vehicle_and_route_info, falsy, hv, ha,
        route_map_body, get_route_timing, hvx]
  · unfold main_run
    cases h : uniqueFirst (fetch_route_numbers true t site plans) <;> simp [h]

/-- C3 witness: a concrete batch in which one route's geometry fetch
raises (the route is skipped, the loop continues) and another route's
telemetry sub-fetches raise (downgraded to empty telemetry), while the
report stage outcome is unaffected. -/
theorem claim_C3_witness :
    create_route_map dbC3err = none ∧
    processRoutes ([] ++ dbC3err :: []) =
      processRoutes [] ++ create_route_map dbC3err :: processRoutes [] ∧
    create_route_map dbC3deg =
      some (buildMap (dropna [some ⟨0, 0, 1⟩]) (dropna []) (dropna []) []) ∧
    (main_run true 10 3 (Except.ok [⟨8, 3, "R1"⟩]) (fun _ => dbC3err)
      envC3).report =
      (main_run true 10 3 (Except.ok [⟨8, 3, "R1"⟩]) (fun _ => dbC3deg)
        envC3).report :=
  claim_C3_isolation dbC3err dbC3deg [] [] "V1" "A1" [] [some ⟨0, 0, 1⟩] [] []
    10 3 (Except.ok [⟨8, 3, "R1"⟩]) (fun _ => dbC3err) (fun _ => dbC3deg)
    envC3 (by rfl) (by rfl) (by decide) (by decide)

/-! C5: the sentinel vehicle `X`. -/

/-- A map rendered with empty telemetry has one node marker per planned
node. -/
theorem countNode_buildMap (ns : List NodeRow) (segs : List Geometry)
    (cs : List ChargeRow) : countNodeMarkers (buildMap ns segs cs []) = ns.length := by
  unfold countNodeMarkers buildMap
  simp only [List.countP_append, actualLayers]
  rw [countP_map_all_true isNodeMarker
      (fun n => Layer.nodeMarker n.lat n.lon (pyRound n.node_sequence)) (fun _ => rfl) ns,
    countP_plotSegments_zero isNodeMarker (fun _ _ => rfl) segs 0,
    countP_map_all_false isNodeMarker
      (fun c => Layer.chargeMarker c.lat c.lon) (fun _ => rfl) cs]
  simp [isNodeMarker]

/-- A map rendered with empty telemetry has one charging marker per
charging stop. -/
theorem countCharge_buildMap (ns : List NodeRow) (segs : List Geometry)
    (cs : List ChargeRow) : countChargeMarkers (buildMap ns segs cs []) = cs.length := by
  unfold countChargeMarkers buildMap
  simp only [List.countP_append, actualLayers]
  rw [countP_map_all_false isChargeMarker
      (fun n => Layer.nodeMarker n.lat n.lon (pyRound n.node_sequence)) (fun _ => rfl) ns,
    countP_plotSegments_zero isChargeMarker (fun _ _ => rfl) segs 0,
    countP_map_all_true isChargeMarker
      (fun c => Layer.chargeMarker c.lat c.lon) (fun _ => rfl) cs]
  simp [isChargeMarker]

/-- Every rendered map carries exactly one depot marker. -/
theorem countDepot_buildMap (ns : List NodeRow) (segs : List Geometry)
    (cs : List ChargeRow) : countDepotMarkers (buildMap ns segs cs []) = 1 := by
  unfold countDepotMarkers buildMap
  simp only [List.countP_append, actualLayers]
  rw [countP_map_all_false isDepotMarker
      (fun n => Layer.nodeMarker n.lat n.lon (pyRound n.node_sequence)) (fun _ => rfl) ns,
    countP_plotSegments_zero isDepotMarker (fun _ _ => rfl) segs 0,
    countP_map_all_false isDepotMarker
      (fun c => Layer.chargeMarker c.lat c.lon) (fun _ => rfl) cs]
  simp [isDepotMarker]

/-- A map rendered with empty telemetry has no actual-route line. -/
theorem countActual_buildMap (ns : List NodeRow) (segs : List Geometry)
    (cs : List ChargeRow) : countActualLines (buildMap ns segs cs []) = 0 := by
  unfold countActualLines buildMap
  simp only [List.countP_append, actualLayers]
  rw [countP_map_all_false isActualLine
      (fun n => Layer.nodeMarker n.lat n.lon (pyRound n.node_sequence)) (fun _ => rfl) ns,
    countP_plotSegments_zero isActualLine (fun _ _ => rfl) segs 0,
    countP_map_all_false isActualLine
      (fun c => Layer.chargeMarker c.lat c.lon) (fun _ => rfl) cs]
  simp [isActualLine]

/-- A map rendered with empty telemetry has no actual-start marker. -/
theorem countStart_buildMap (ns : List NodeRow) (segs : List Geometry)
    (cs : List ChargeRow) : countStartMarkers (buildMap ns segs cs []) = 0 := by
  unfold countStartMarkers buildMap
  simp only [List.countP_append, actualLayers]
  rw [countP_map_all_false isStartMarker
      (fun n => Layer.nodeMarker n.lat n.lon (pyRound n.node_sequence)) (fun _ => rfl) ns,
    countP_plotSegments_zero isStartMarker (fun _ _ => rfl) segs 0,
    countP_map_all_false isStartMarker
      (fun c => Layer.chargeMarker c.lat c.lon) (fun _ => rfl) cs]
  simp [isStartMarker]

/-- A map rendered with empty telemetry has no actual-end marker. -/
theorem countEnd_buildMap (ns : List NodeRow) (segs : List Geometry)
    (cs : List ChargeRow) : countEndMarkers (buildMap ns segs cs []) = 0 := by
  unfold countEndMarkers buildMap
  simp only [List.countP_append, actualLayers]
  rw [countP_map_all_false isEndMarker
      (fun n => Layer.nodeMarker n.lat n.lon (pyRound n.node_sequence)) (fun _ => rfl) ns,
    countP_plotSegments_zero isEndMarker (fun _ _ => rfl) segs 0,
    countP_map_all_false isEndMarker
      (fun c => Layer.chargeMarker c.lat c.lon) (fun _ => rfl) cs]
  simp [isEndMarker]

/-- C5: for a route resolving to the sentinel vehicle `X` with a truthy
alias, the map is rendered with an empty telemetry frame; with 3 planned
nodes and 1 charging stop it contains exactly 3 numbered node markers,
1 charging marker and 1 depot marker, and no actual-route line or
actual start/end markers; and the outcome is independent of the
telemetry-window and telemetry-track fixtures, i.e. no telemetry fetch
influences it. -/
theorem claim_C5_sentinel (db : Db) (a : String) (rest : List PlanRow)
    (nrows : List (Option NodeRow)) (srows : List (Option Geometry))
    (crows : List (Option ChargeRow))
    (tr : Except Unit (List TimingRow)) (te : Except Unit (List TelemetryRow))
    (hconn : db.connOk = true)
    (hplan : db.planRows = Except.ok (⟨"X", a⟩ :: rest))
    (ha : a ≠ "")
    (hn : db.nodeRows = Except.ok nrows) (hn3 : (dropna nrows).length = 3)
    (hs : db.segmentRows = Except.ok srows)
    (hc : db.chargingRows = Except.ok crows) (hc1 : (dropna crows).length = 1) :
    create_route_map db =
      some (buildMap (dropna nrows) (dropna srows) (dropna crows) []) ∧
    countNodeMarkers (buildMap (dropna nrows) (dropna srows) (dropna crows) []) = 3 ∧
    countChargeMarkers (buildMap (dropna nrows) (dropna srows) (dropna crows) []) = 1 ∧
    countDepotMarkers (buildMap (dropna nrows) (dropna srows) (dropna crows) []) = 1 ∧
    countActualLines (buildMap (dropna nrows) (dropna srows) (dropna crows) []) = 0 ∧
    countStartMarkers (buildMap (dropna nrows) (dropna srows) (dropna crows) []) = 0 ∧
    countEndMarkers (buildMap (dropna nrows) (dropna srows) (dropna crows) []) = 0 ∧
    create_route_map { db with timingRows := tr, telemetryRows := te } =
      create_route_map db := by
  have hmain : ∀ db2 : Db, db2.connOk = true →
      db2.planRows = Except.ok (⟨"X", a⟩ :: rest) →
      db2.nodeRows = Except.ok nrows → db2.segmentRows = Except.ok srows →
      db2.chargingRows = Except.ok crows →
      create_route_map db2 =
        some (buildMap (dropna nrows) (dropna srows) (dropna crows) []) := by
    intro db2 c2 p2 n2 s2 g2
    simp [create_route_map, get_vehicle_and_route_info, falsy, ha,
      route_map_body, c2, p2, n2, s2, g2]
  have h1 := hmain db hconn hplan hn hs hc
  have h2 := hmain { db with timingRows := tr, telemetryRows := te }
    hconn hplan hn hs hc
  refine ⟨h1, ?_, ?_, ?_, ?_, ?_, ?_, by rw [h1, h2]⟩
  · rw [countNode_buildMap, hn3]
  · rw [countCharge_buildMap, hc1]
  · exact countDepot_buildMap _ _ _
  · exact countActual_buildMap _ _ _
  · exact countStart_buildMap _ _ _
  · exact countEnd_buildMap _ _ _

/-- C5 witness: the sentinel route `dbC5` (3 complete node rows, 1
charging row, telemetry fixtures present but never consulted). -/
theorem claim_C5_witness :
    create_route_map dbC5 =
      some (buildMap (dropna [some ⟨1, 2, 1⟩, none, some ⟨3, 4, 2⟩, some ⟨5, 6, 3⟩])
        (dropna [some (.lineString [(0, 1), (2, 3)]), some .other])
        (dropna [some ⟨7, 8⟩]) []) ∧
    countNodeMarkers (buildMap (dropna [some ⟨1, 2, 1⟩, none, some ⟨3, 4, 2⟩, some ⟨5, 6, 3⟩])
      (dropna [some (.lineString [(0, 1), (2, 3)]), some .other])
      (dropna [some ⟨7, 8⟩]) []) = 3 ∧
    countChargeMarkers (buildMap (dropna [some ⟨1, 2, 1⟩, none, some ⟨3, 4, 2⟩, some ⟨5, 6, 3⟩])
      (dropna [some (.lineString [(0, 1), (2, 3)]), some .other])
      (dropna [some ⟨7, 8⟩]) []) = 1 ∧
    countDepotMarkers (buildMap (dropna [some ⟨1, 2, 1⟩, none, some ⟨3, 4, 2⟩, some ⟨5, 6, 3⟩])
      (dropna [some (.lineString [(0, 1), (2, 3)]), some .other])
      (dropna [some ⟨7, 8⟩]) []) = 1 ∧
    countActualLines (buildMap (dropna [some ⟨1, 2, 1⟩, none, some ⟨3, 4, 2⟩, some ⟨5, 6, 3⟩])
      (dropna [some (.lineString [(0, 1), (2, 3)]), some .other])
      (dropna [some ⟨7, 8⟩]) []) = 0 ∧
    countStartMarkers (buildMap (dropna [some ⟨1, 2, 1⟩, none, some ⟨3, 4, 2⟩, some ⟨5, 6, 3⟩])
      (dropna [some (.lineString [(0, 1), (2, 3)]), some .other])
      (dropna [some ⟨7, 8⟩]) []) = 0 ∧
    countEndMarkers (buildMap (dropna [some ⟨1, 2, 1⟩, none, some ⟨3, 4, 2⟩, some ⟨5, 6, 3⟩])
      (dropna [some (.lineString [(0, 1), (2, 3)]), some .other])
      (dropna [some ⟨7, 8⟩]) []) = 0 ∧
    create_route_map
      { dbC5 with
        timingRows := Except.error ()
        telemetryRows := Except.error () } = create_route_map dbC5 :=
  claim_C5_sentinel dbC5 "A7" [] [some ⟨1, 2, 1⟩, none, some ⟨3, 4, 2⟩, some ⟨5, 6, 3⟩]
    [some (.lineString [(0, 1), (2, 3)]), some .other] [some ⟨7, 8⟩]
    (Except.error ()) (Except.error ()) (by rfl) (by rfl) (by decide)
    (by rfl) (by decide) (by rfl) (by rfl) (by decide)

/-! C7: node order and map center. -/

/-- When `create_route_map` produces a map, all three planned-geometry
fetches succeeded and the map is `buildMap` of the cleaned frames. -/
theorem create_route_map_some_shape {db : Db} {m : RouteMap}
    (h : create_route_map db = some m) :
    ∃ nrows srows crows tel,
      db.nodeRows = Except.ok nrows ∧ db.segmentRows = Except.ok srows ∧
      db.chargingRows = Except.ok crows ∧
      m = buildMap (dropna nrows) (dropna srows) (dropna crows) tel := by
  by_cases hconn : db.connOk = false
  · simp [create_route_map, hconn] at h
  · by_cases hg : (falsy (get_vehicle_and_route_info db.planRows).1 ||
        falsy (get_vehicle_and_route_info db.planRows).2) = true
    · simp [create_route_map, hconn, hg] at h
    · simp only [create_route_map, hconn, if_false, Bool.not_eq_true_eq_eq_false] at h
      rw [if_neg hg] at h
      rcases hb : route_map_body db (get_vehicle_and_route_info db.planRows).1
        with u | mm <;> rw [hb] at h
      · simp at h
      · simp at h
        subst h
        unfold route_map_body at hb
        rcases hn : db.nodeRows with u | nrows <;> rw [hn] at hb
        · rcases hs : db.segmentRows with u2 | srows <;> rw [hs] at hb <;>
            rcases hc : db.chargingRows with u3 | crows <;> rw [hc] at hb <;>
              simp at hb
        · rcases hs : db.segmentRows with u2 | srows <;> rw [hs] at hb
          · rcases hc : db.chargingRows with u3 | crows <;> rw [hc] at hb <;>
              simp at hb
          · rcases hc : db.chargingRows with u3 | crows <;> rw [hc] at hb
            · simp at hb
            · simp only [Except.ok.injEq] at hb
              exact ⟨nrows, srows, crows, _, rfl, rfl, rfl, hb.symm⟩

/-- C7 counterexample: the claim's invariant says planned nodes of every
assembled record are in strictly increasing sequence order.  For `dbC7`
the store returns sequences 2 then 1; the record is assembled and
rendered (the map exists and its markers are labeled 2 then 1), yet the
order is not strictly increasing. -/
theorem claim_C7_counterexample :
    (create_route_map dbC7).isSome = true ∧
    nodeMarkerLabels ((create_route_map dbC7).getD (buildMap [] [] [] [])) = [2, 1] ∧
    strictlyIncreasingSeq (assembledNodes dbC7) = false := by
  refine ⟨by decide, by decide, by decide⟩

/-- C7 (amended): assembly preserves the data store's row order (it
drops incomplete rows but never sorts, so strictly increasing sequence
numbers are not guaranteed); whenever a map is rendered, its center is
the first assembled node's coordinates when any node exists and the
fixed fallback `(51.5, -0.1)` otherwise, and its node markers carry the
assembled nodes' rounded sequence numbers in assembly order. -/
theorem claim_C7_amended (db : Db) (m : RouteMap)
    (h : create_route_map db = some m) :
    m.center = (match assembledNodes db with
                | [] => (fallback_lat, fallback_lon)
                | n :: _ => (n.lat, n.lon)) ∧
    nodeMarkerLabels m = (assembledNodes db).map (fun n => pyRound n.node_sequence) := by
  obtain ⟨nrows, srows, crows, tel, hn, _, _, rfl⟩ := create_route_map_some_shape h
  have hassembled : assembledNodes db = dropna nrows := by
    unfold assembledNodes
    rw [hn]
  rw [hassembled]
  exact ⟨center_buildMap _ _ _ _, nodeMarkerLabels_buildMap _ _ _ _⟩

/-- C7 witness: the amended statement evaluated on the concrete `dbC7`. -/
theorem claim_C7_witness :
    mapC7.center = (match assembledNodes dbC7 with
                    | [] => (fallback_lat, fallback_lon)
                    | n :: _ => (n.lat, n.lon)) ∧
    nodeMarkerLabels mapC7 = (assembledNodes dbC7).map (fun n => pyRound n.node_sequence) :=
  claim_C7_amended dbC7 mapC7 (by decide)

/-! C9: segment polylines and arrow cadence. -/

/-- The polylines plotted by the segment loop are exactly the
`LineString` rows' coordinates with axes swapped, whatever the counter. -/
theorem plottedLines_loop (segs : List Geometry) :
    ∀ c, (plotSegments segs c).filterMap lineOf =
      (lineStringsOf segs).map (fun cs => cs.map (fun pt => (pt.2, pt.1))) := by
  induction segs with
  | nil => intro c; rfl
  | cons g rest ih =>
      intro c
      cases g with
      | other =>
          simpa [plotSegments, lineStringsOf, lineGeomOf] using ih c
      | lineString cs =>
          simp only [plotSegments, List.filterMap_cons, lineOf, lineStringsOf,
            lineGeomOf, List.map_cons]
          rw [ih (c + 1)]
          rfl

/-- The arrow flags of the plotted lines: the k-th plotted line (with
the counter starting at `c`) carries an arrow exactly when
`(c + k) % 20 == 0` for its 1-based position `k`. -/
theorem arrowFlags_loop (segs : List Geometry) :
    ∀ c, (plotSegments segs c).filterMap arrowOf =
      (List.range (lineStringsOf segs).length).map
        (fun i => (c + i + 1) % 20 == 0) := by
  induction segs with
  | nil => intro c; rfl
  | cons g rest ih =>
      intro c
      cases g with
      | other =>
          simpa [plotSegments, lineStringsOf, lineGeomOf] using ih c
      | lineString cs =>
          simp only [plotSegments, List.filterMap_cons, arrowOf, lineStringsOf,
            lineGeomOf, List.length_cons]
          rw [ih (c + 1), List.range_succ_eq_map]
          simp only [List.map_cons, List.map_map, Nat.add_zero, List.cons.injEq,
            true_and]
          apply List.map_congr_left
          intro i hi
          simp only [Function.comp_apply, Nat.succ_eq_add_one]
          have hz : c + 1 + i + 1 = c + (i + 1) + 1 := by omega
          rw [hz]

/-- C9: every `LineString` segment is plotted as a connected polyline
(the row's coordinates, axes swapped), a directional arrow is overlaid
exactly on every 20th plotted segment (1-based positions divisible by
20), and for any frame with at least two plotted segments the arrows
are never on every segment (the first plotted segment never carries
one). -/
theorem claim_C9_arrow_cadence (segs : List Geometry) :
    plottedLines segs =
      (lineStringsOf segs).map (fun cs => cs.map (fun pt => (pt.2, pt.1))) ∧
    arrowFlags segs =
      (List.range (lineStringsOf segs).length).map (fun i => (i + 1) % 20 == 0) ∧
    (2 ≤ (lineStringsOf segs).length → ¬(∀ b ∈ arrowFlags segs, b = true)) := by
  have hB0 : arrowFlags segs =
      (List.range (lineStringsOf segs).length).map (fun i => (i + 1) % 20 == 0) := by
    rw [arrowFlags, arrowFlags_loop segs 0]
    apply List.map_congr_left
    intro i hi
    have hz : 0 + i + 1 = i + 1 := by omega
    rw [hz]
  refine ⟨plottedLines_loop segs 0, hB0, ?_⟩
  intro hlen hall
  have h0 : (false : Bool) ∈ arrowFlags segs := by
    rw [hB0]
    refine List.mem_map.mpr ⟨0, List.mem_range.mpr (by omega), by decide⟩
  exact absurd (hall false h0) (by decide)

/-- C9 witness: a concrete frame with two `LineString` rows, on which
not every plotted segment carries an arrow. -/
theorem claim_C9_witness :
    2 ≤ (lineStringsOf segsC9).length ∧
    ¬(∀ b ∈ arrowFlags segsC9, b = true) :=
  ⟨by decide, (claim_C9_arrow_cadence segsC9).2.2 (by decide)⟩

/-! C6: section order and page separators. -/

/-- The value `sorted(files)[-1]` is an element of the list. -/
theorem lastOf_mem (y : String) (t : List String) : lastOf (y :: t) ∈ y :: t := by
  induction t generalizing y with
  | nil => simp [lastOf]
  | cons z s ih =>
      have := ih z
      simp only [lastOf]
      exact List.mem_cons_of_mem y (ih z)

/-- When every capture succeeds, the PDF loop (which compares each file
by value against the last of the sorted list) produces exactly the
spec's layout: sections in list order, a page break after every
non-final section and none after the final one. -/
theorem sectionsLoop_ok_spec (env : ReportEnv) :
    ∀ fs : List String, (∀ f ∈ fs, env.capture f = CaptureStatus.ok) →
      fs.Nodup → fs ≠ [] →
      sectionsLoop env fs (lastOf fs) = specSections env fs := by
  intro fs
  induction fs with
  | nil => intro _ _ hne; exact absurd rfl hne
  | cons f t ih =>
      intro hok hnd _
      rcases List.nodup_cons.mp hnd with ⟨hft, hndt⟩
      have hf := hok f (by simp)
      cases t with
      | nil => simp [sectionsLoop, lastOf, sectionFor, hf, specSections]
      | cons g s =>
          have hmem : lastOf (g :: s) ∈ g :: s := lastOf_mem g s
          have hne2 : ¬(f = lastOf (g :: s)) := fun hEq => hft (by rw [hEq]; exact hmem)
          have ht := ih (fun x hx => hok x (List.mem_cons_of_mem f hx)) hndt
            (by simp)
          simp only [sectionsLoop, lastOf, sectionFor, hf, hne2, if_neg,
            specSections] at ht ⊢
          rw [ht]
          simp

/-- C6 counterexample: with map files for routes `A` and `B` and the
capture of `B` (the last in sorted order) failing, the final surviving
section — route `A`'s — is followed by a page separator, contradicting
the claim that no page separator follows the final section even when
artifacts are dropped. -/
theorem claim_C6_counterexample :
    sections envC6x =
      [Element.subtitle "Route A", Element.spacer,
       Element.image "screenshot_A.jpg", Element.pageBreak, Element.spacer] ∧
    Element.pageBreak ∈ afterLastImage (sections envC6x) := by
  refine ⟨by decide, by decide⟩

/-- C6 (amended): route sections appear in the deterministic sorted
order of the artifact keys, each section a heading followed by the
captured image; when every artifact survives capture there is a page
separator between consecutive sections and none after the final one.
The separator decision compares each file against the last of the full
sorted list, so when the sorted-last artifact is dropped by a capture
failure, the last surviving section is followed by a page separator. -/
theorem claim_C6_amended (env : ReportEnv)
    (hok : ∀ f ∈ sortedHtml env, env.capture f = CaptureStatus.ok)
    (hnd : (sortedHtml env).Nodup) (hne : sortedHtml env ≠ []) :
    sections env = specSections env (sortedHtml env) := by
  unfold sections
  exact sectionsLoop_ok_spec env (sortedHtml env) hok hnd hne

/-- C6 witness: a concrete run in which both captures succeed and the
produced sections equal the spec layout. -/
theorem claim_C6_witness :
    sections envC6w = specSections envC6w (sortedHtml envC6w) :=
  claim_C6_amended envC6w (by decide) (by decide) (by decide)

end RouteMaps
